import Mathlib

/-!
Verification of the solar energy estimator (src/solar_appv1.py).

The program builds a pandas DataFrame of hourly irradiance samples,
derives per-sample production, financial and environmental metrics,
groups production by calendar month, filters an hourly date range,
and estimates rooftop area from a drawn polygon.  The definitions
below are a shallow embedding of that module-level code; external
collaborators (geopy geocoding, the open-meteo fetch, pyproj geodesy)
are abstracted as oracles or outcome parameters at the call boundary.

Numeric modelling: pandas float columns are modelled over the
rationals.  A JSON null in the irradiance series becomes NaN in the
float column; missing-capable values are `Option ℚ` with `none` for
NaN.  Pandas arithmetic propagates NaN (here: `Option.map`) and
`Series.sum` skips NaN (here: `Option.getD 0` before summing).
-/

namespace SolarApp

/-- Timestamp of one hourly sample, keeping only the components the
program reads: the calendar date (an ordinal day, used by the
`dt.date` range mask), the month number 1-12 (`dt.month`, the groupby
key) and the month name string (`strftime` with the abbreviated-month
format, the `Month` column). -/
structure Timestamp where
  date : Int
  month : Nat
  monthName : String
deriving DecidableEq, Repr

/-- One row of the raw hourly series: `ghi = none` models a JSON null
from the archive API, which pandas stores as NaN. -/
structure IrradianceSample where
  t : Timestamp
  ghi : Option ℚ
deriving DecidableEq, Repr

/-- One row of the derived DataFrame `df` with columns Timestamp, ghi
and production (line 142-146 of src/solar_appv1.py). -/
structure ProductionSample where
  t : Timestamp
  ghi : Option ℚ
  production : Option ℚ
deriving DecidableEq, Repr

/-- Line 146: `df['production'] = (df['ghi'] / 1000) * sys_capacity *
sys_efficiency`.  Pandas arithmetic on a NaN cell yields NaN, hence
`Option.map`. -/
def productionOf (cap eff : ℚ) (g : Option ℚ) : Option ℚ :=
  g.map fun x => x / 1000 * cap * eff

/-- Lines 142-146: build the derived DataFrame from the raw hourly
series and the two sidebar sliders. -/
def mkSeries (raw : List IrradianceSample) (cap eff : ℚ) : List ProductionSample :=
  raw.map fun s => ⟨s.t, s.ghi, productionOf cap eff s.ghi⟩

/-- Pandas `Series.sum()` with its default `skipna=True`: NaN cells
contribute nothing to the total. -/
def nanSum (l : List (Option ℚ)) : ℚ :=
  (l.map fun o => o.getD 0).sum

/-- Line 150: `annual_yield = df['production'].sum()`. -/
def annual_yield (df : List ProductionSample) : ℚ :=
  nanSum (df.map fun s => s.production)

/-- The concrete series of the spec example: 8760 hourly samples, each
with ghi = 500 W/m².  The timestamp is irrelevant to the per-sample
formula and the annual total. -/
def flatYear : List IrradianceSample :=
  List.replicate 8760 ⟨⟨0, 1, "Jan"⟩, some 500⟩

/-- One row of `monthly_df` (lines 172-175): per-month production total
and the first month label of the group (`agg` with sum on production
and first on Month). -/
structure MonthlyAggregate where
  monthLabel : String
  totalProductionKwh : ℚ
deriving DecidableEq, Repr

/-- The rows of `df` belonging to one groupby key, i.e. one calendar
month number. -/
def monthFilter (df : List ProductionSample) (m : Nat) : List ProductionSample :=
  df.filter fun s => decide (s.t.month = m)

/-- The groupby keys of lines 172-175: the distinct month numbers
present in the data, in ascending order (`sort_index()`). -/
def monthKeys (df : List ProductionSample) : List Nat :=
  List.insertionSort (· ≤ ·) ((df.map fun s => s.t.month).dedup)

/-- Lines 171-175: `monthly_df = df.groupby(df['Timestamp'].dt.month)
.agg({'production': 'sum', 'Month': 'first'}).sort_index()`.  One
aggregate per month present, ordered by month index; months with no
samples are absent. -/
def monthlyView (df : List ProductionSample) : List MonthlyAggregate :=
  (monthKeys df).map fun m =>
    { monthLabel := (((monthFilter df m).head?).map fun s => s.t.monthName).getD ""
      totalProductionKwh := nanSum ((monthFilter df m).map fun s => s.production) }

/-- Lines 190-191: `mask = (df['Timestamp'].dt.date >= date_range[0])
& (df['Timestamp'].dt.date <= date_range[1]); filtered_df =
df.loc[mask]`. -/
def rangeFilter (df : List ProductionSample) (startD endD : Int) :
    List ProductionSample :=
  df.filter fun s => decide (startD ≤ s.t.date) && decide (s.t.date ≤ endD)

/-- A raw sample whose ghi is a JSON null (pandas NaN). -/
def nullSample : IrradianceSample := ⟨⟨0, 1, "Jan"⟩, none⟩

/-- Replacing a missing ghi by zero before deriving production: what
the spec describes, used to compare aggregate behaviour. -/
def fillGhiZero (s : IrradianceSample) : IrradianceSample :=
  ⟨s.t, some (s.ghi.getD 0)⟩

/-- Division as performed on the numpy float scalars of line 157: a
zero divisor does not raise, it silently produces a non-finite float
(inf or nan, with only a RuntimeWarning).  `none` stands for that
non-finite result; any other division gives the exact quotient. -/
def fdiv (a b : ℚ) : Option ℚ :=
  if b = 0 then none else some (a / b)

/-- Python `int(x)` on a float: truncation toward zero. -/
def pyInt (q : ℚ) : Int :=
  if 0 ≤ q then ⌊q⌋ else ⌈q⌉

/-- The metrics of the Financial and Impact tab. -/
structure FinancialSummary where
  monthlyGenerationKwh : ℚ
  annualSavings : ℚ
  billOffsetPercent : Option ℚ
  co2SavedTonnes : ℚ
  treeEquivalent : Int
deriving DecidableEq, Repr

/-- Lines 150-164: `monthly_yield = annual_yield / 12`,
`annual_savings = annual_yield * electricity_rate`, the Bill Offset
metric `monthly_yield / (monthly_bill/electricity_rate) * 100`,
`co2_saved = (annual_yield * 0.7) / 1000` and
`int(co2_saved * 45)`.  The code performs no zero checks; the bill
offset division is the bare numpy float division of `fdiv`.  The UI
slider keeps `electricity_rate` in [5, 15], so only `monthly_bill`
can make the divisor zero. -/
def financialSummary (annual bill rate : ℚ) : FinancialSummary :=
  { monthlyGenerationKwh := annual / 12
    annualSavings := annual * rate
    billOffsetPercent := (fdiv (annual / 12) (bill / rate)).map fun q => q * 100
    co2SavedTonnes := annual * (7/10) / 1000
    treeEquivalent := pyInt (annual * (7/10) / 1000 * 45) }

/-- A polygon ring as drawn on the map: longitude/latitude vertices. -/
def Ring : Type := List (ℚ × ℚ)

/-- Lines 77-82: `calculate_geodesic_area` delegates the signed
geodesic area to pyproj (`Geod(ellps="WGS84").geometry_area_perimeter`,
an external library, abstracted here as the oracle `signedArea`) and
returns its absolute value. -/
def calculate_geodesic_area (signedArea : Ring → ℚ) (g : Ring) : ℚ :=
  |signedArea g|

/-- The area result shown in the Rooftop Area tab. -/
structure AreaEstimate where
  areaSquareMeters : ℚ
  impliedCapacityKw : ℚ
deriving DecidableEq, Repr

/-- Lines 236-243: the reported area and `est_capacity = area_sqm / 10`. -/
def areaEstimateOf (signedArea : Ring → ℚ) (g : Ring) : AreaEstimate :=
  { areaSquareMeters := calculate_geodesic_area signedArea g
    impliedCapacityKw := calculate_geodesic_area signedArea g / 10 }

/-- One drawn shape from the map widget: its GeoJSON geometry type and
its vertex ring. -/
structure Drawing where
  geomType : String
  ring : Ring

/-- Outcome of the drawing handler: either an area estimate or the
warning shown to the user, with no area attached. -/
inductive AreaOutcome where
  | ok (est : AreaEstimate)
  | warn (msg : String)
deriving DecidableEq

/-- Lines 230-246: the last drawn shape is accepted only when its
geometry type is the string Polygon; any other shape gets the warning
and no area computation. -/
def processDrawing (signedArea : Ring → ℚ) (d : Drawing) : AreaOutcome :=
  if d.geomType = "Polygon" then .ok (areaEstimateOf signedArea d.ring)
  else .warn "Please draw a polygon or rectangle."

/-- A concrete signed-area oracle that is odd under ring reversal, used
to witness C6: it weighs vertices by position and antisymmetrizes. -/
def wsum : List (ℚ × ℚ) → ℚ
  | [] => 0
  | x :: xs => x.1 + 2 * wsum xs

/-- Antisymmetrized positional weight: odd under list reversal. -/
def demoSignedArea (r : Ring) : ℚ :=
  wsum r - wsum (List.reverse r)

/-- Outcome of the external geopy call inside `get_coordinates`: the
geocoder found a location, found nothing, or raised (timeout, network
failure, rate-limit error). -/
inductive GeocodeResult where
  | found (lat lon : ℚ) (addr : String)
  | notFound
  | geoError (e : String)
deriving DecidableEq

/-- Lines 36-51: `get_coordinates` returns the coordinate triple, or
the None triple when the geocoder found nothing; an exception is
caught, shown via `st.error` as a Geocoding error message, and also
becomes the None triple.  The returned value is the optional triple
together with the list of messages emitted so far. -/
def get_coordinates (r : GeocodeResult) :
    Option (ℚ × ℚ × String) × List String :=
  match r with
  | .found lat lon addr => (some (lat, lon, addr), [])
  | .notFound => (none, [])
  | .geoError e => (none, ["Geocoding error: " ++ e])

/-- Line 119: Python truthiness of `lat` — `None` is falsy and the
float 0.0 is falsy too. -/
def latTruthy (lat : Option ℚ) : Bool :=
  match lat with
  | none => false
  | some v => decide (v ≠ 0)

/-- The message of line 262. -/
def addressNotFoundMsg : String :=
  "Address not found. Please try adding city and state or enable manual lat/lon."

/-- Lines 119-262: the gate around the whole analysis.  When `if lat:`
holds the archive fetch is attempted; otherwise the address-not-found
error is appended to whatever messages geocoding already emitted and
no fetch happens.  The result is (fetchAttempted, messages shown). -/
def analyzeGate (lat : Option ℚ) (priorMsgs : List String) :
    Bool × List String :=
  if latTruthy lat then (true, priorMsgs)
  else (false, priorMsgs ++ [addressNotFoundMsg])

/-- The address path of lines 107-134: geocode, then gate on the
returned latitude. -/
def runGeocodePipeline (r : GeocodeResult) : Bool × List String :=
  let g := get_coordinates r
  analyzeGate (g.1.map fun t => t.1) g.2

/-- C1: for every irradiance value and every configuration with
capacityKw > 0 and efficiency in (0,1], the derived per-sample
production is (ghi / 1000) × capacityKw × efficiency; in particular,
for 8760 hourly samples each with ghi = 500, capacityKw = 5 and
efficiency = 0.78, every production value is 1.95 and the annual total
is 17082. -/
theorem per_sample_production_formula (ghi cap eff : ℚ)
    (hcap : 0 < cap) (heff0 : 0 < eff) (heff1 : eff ≤ 1) :
    productionOf cap eff (some ghi) = some (ghi / 1000 * cap * eff) ∧
    (∀ s ∈ mkSeries flatYear 5 (78/100), s.production = some 1.95) ∧
    annual_yield (mkSeries flatYear 5 (78/100)) = 17082 := by
  refine ⟨rfl, ?_, ?_⟩
  · intro s hs
    have hrep : mkSeries flatYear 5 (78/100) =
        List.replicate 8760 ⟨⟨0, 1, "Jan"⟩, some 500,
          productionOf 5 (78/100) (some 500)⟩ := by
      simp only [mkSeries, flatYear, List.map_replicate]
    rw [hrep] at hs
    have := List.eq_of_mem_replicate hs
    rw [this]
    show productionOf 5 (78/100) (some 500) = some 1.95
    simp only [productionOf, Option.map_some']
    norm_num
  · have hrep : mkSeries flatYear 5 (78/100) =
        List.replicate 8760 ⟨⟨0, 1, "Jan"⟩, some 500,
          productionOf 5 (78/100) (some 500)⟩ := by
      simp only [mkSeries, flatYear, List.map_replicate]
    rw [annual_yield, hrep, nanSum]
    simp only [List.map_replicate, List.sum_replicate]
    show (8760 : ℕ) • ((productionOf 5 (78/100) (some 500)).getD 0) = 17082
    simp only [productionOf, Option.map_some', Option.getD_some, nsmul_eq_mul]
    norm_num

/-- Witness for C1 at ghi = 500, capacityKw = 5, efficiency = 0.78. -/
theorem per_sample_production_formula_witness :
    productionOf 5 (78/100) (some 500) = some (500 / 1000 * 5 * (78/100)) ∧
    (∀ s ∈ mkSeries flatYear 5 (78/100), s.production = some 1.95) ∧
    annual_yield (mkSeries flatYear 5 (78/100)) = 17082 :=
  per_sample_production_formula 500 5 (78/100) (by norm_num) (by norm_num)
    (by norm_num)

/-- Summing a quantity fiber-by-fiber over the distinct keys of a list
recovers the sum over the whole list. -/
theorem sum_fiber {α κ : Type} [DecidableEq κ] (key : α → κ) (val : α → ℚ)
    (l : List α) :
    ∑ k ∈ (l.map key).toFinset, ((l.filter fun x => decide (key x = k)).map val).sum
      = (l.map val).sum := by
  induction l with
  | nil => simp
  | cons a l ih =>
    rw [List.map_cons, List.toFinset_cons]
    have hterm : ∀ k ∈ insert (key a) (l.map key).toFinset,
        (((a :: l).filter fun x => decide (key x = k)).map val).sum
          = (if key a = k then val a else 0)
            + ((l.filter fun x => decide (key x = k)).map val).sum := by
      intro k _
      by_cases h : key a = k
      · simp [List.filter_cons, h]
      · simp [List.filter_cons, h]
    rw [Finset.sum_congr rfl hterm, Finset.sum_add_distrib, Finset.sum_ite_eq]
    have hins : ∑ k ∈ insert (key a) (l.map key).toFinset,
        ((l.filter fun x => decide (key x = k)).map val).sum
          = ∑ k ∈ (l.map key).toFinset,
              ((l.filter fun x => decide (key x = k)).map val).sum := by
      by_cases hmem : key a ∈ (l.map key).toFinset
      · rw [Finset.insert_eq_self.mpr hmem]
      · rw [Finset.sum_insert hmem]
        have hnil : (l.filter fun x => decide (key x = key a)) = [] := by
          rw [List.filter_eq_nil_iff]
          intro x hx hkey
          exact hmem (List.mem_toFinset.mpr
            (List.mem_map.mpr ⟨x, hx, by simpa using hkey⟩))
        rw [hnil]
        simp
    rw [hins, ih]
    simp

/-- C2: the totals of the monthly view sum to the total of the whole
production series: grouping by calendar month loses no production. -/
theorem monthly_totals_conserve_annual_yield (df : List ProductionSample) :
    ((monthlyView df).map fun a => a.totalProductionKwh).sum = annual_yield df := by
  have hmap : ((monthlyView df).map fun a => a.totalProductionKwh)
      = (monthKeys df).map fun m =>
          nanSum ((monthFilter df m).map fun s => s.production) := by
    simp [monthlyView, List.map_map, Function.comp]
  rw [hmap]
  have hperm : List.Perm
      ((monthKeys df).map fun m =>
        nanSum ((monthFilter df m).map fun s => s.production))
      (((df.map fun s => s.t.month).dedup).map fun m =>
        nanSum ((monthFilter df m).map fun s => s.production)) :=
    (List.perm_insertionSort _ _).map _
  rw [hperm.sum_eq]
  have hnodup : ((df.map fun s => s.t.month).dedup).Nodup := List.nodup_dedup _
  rw [← List.sum_toFinset _ hnodup]
  have hfs : ((df.map fun s => s.t.month).dedup).toFinset
      = ((df.map fun s => s.t.month)).toFinset :=
    List.toFinset.ext fun x => by simp
  rw [hfs]
  have hval : ∀ m ∈ ((df.map fun s => s.t.month)).toFinset,
      nanSum ((monthFilter df m).map fun s => s.production)
        = ((df.filter fun x => decide (x.t.month = m)).map
            fun s => (s.production).getD 0).sum := by
    intro m _
    simp [nanSum, monthFilter, List.map_map, Function.comp_def]
  rw [Finset.sum_congr rfl hval]
  rw [sum_fiber (fun s => s.t.month) (fun s => (s.production).getD 0) df]
  simp [annual_yield, nanSum, List.map_map, Function.comp_def]

/-- Witness for C2 on a concrete two-month series. -/
theorem monthly_totals_conserve_annual_yield_witness :
    ((monthlyView (mkSeries
        [⟨⟨0, 1, "Jan"⟩, some 500⟩, ⟨⟨40, 2, "Feb"⟩, some 300⟩,
         ⟨⟨41, 2, "Feb"⟩, none⟩] 5 (78/100))).map
      fun a => a.totalProductionKwh).sum
      = annual_yield (mkSeries
        [⟨⟨0, 1, "Jan"⟩, some 500⟩, ⟨⟨40, 2, "Feb"⟩, some 300⟩,
         ⟨⟨41, 2, "Feb"⟩, none⟩] 5 (78/100)) :=
  monthly_totals_conserve_annual_yield _

/-- C9: an inverted date range (start after end) yields the empty
filtered view, a plain value of the same type as any other filtered
view, not an error. -/
theorem inverted_range_filters_to_empty (df : List ProductionSample)
    (startD endD : Int) (h : endD < startD) :
    rangeFilter df startD endD = [] := by
  rw [rangeFilter, List.filter_eq_nil_iff]
  intro s _ hs
  rcases Bool.and_eq_true_iff.mp hs with ⟨h1, h2⟩
  have h1q : startD ≤ s.t.date := of_decide_eq_true h1
  have h2q : s.t.date ≤ endD := of_decide_eq_true h2
  exact absurd (le_trans h1q h2q) (not_le.mpr h)

/-- Witness for C9: a one-sample series and the range [5, 3]. -/
theorem inverted_range_filters_to_empty_witness :
    rangeFilter (mkSeries [⟨⟨4, 1, "Jan"⟩, some 500⟩] 5 (78/100)) 5 3 = [] :=
  inverted_range_filters_to_empty _ 5 3 (by norm_num)

/-- C3 counterexample: on a series holding one null ghi with
capacityKw = 5 and efficiency = 0.78, the derived production of that
sample is the missing value NaN (`none`), not the number 0: the null
is propagated, not replaced by zero. -/
theorem null_ghi_production_is_missing_cex :
    ((mkSeries [nullSample] 5 (78/100)).map fun s => s.production) = [none] ∧
    (none : Option ℚ) ≠ some 0 := by
  constructor
  · simp [mkSeries, nullSample, productionOf]
  · intro h
    exact Option.noConfusion h

/-- C3 amended: a missing ghi propagates to a missing production value
(pandas NaN arithmetic) with no error raised, and the aggregate sum
skips the missing cells, so every total behaves as if the nulls had
been zero. -/
theorem null_ghi_propagates_and_sums_as_zero (df : List IrradianceSample)
    (cap eff : ℚ) :
    (∀ s ∈ mkSeries df cap eff, s.ghi = none → s.production = none) ∧
    annual_yield (mkSeries df cap eff)
      = annual_yield (mkSeries (df.map fillGhiZero) cap eff) := by
  constructor
  · intro s hs hghi
    rcases List.mem_map.mp hs with ⟨r, _, hr⟩
    rw [← hr] at hghi ⊢
    simp only [productionOf]
    rw [show r.ghi = none from hghi]
    rfl
  · simp only [annual_yield, nanSum, mkSeries, List.map_map]
    apply congrArg
    apply List.map_congr_left
    intro s _
    simp only [Function.comp_apply, fillGhiZero, productionOf]
    cases hg : s.ghi with
    | none => simp
    | some x => simp

/-- Witness for C3 amended at a two-sample series with one null. -/
theorem null_ghi_propagates_and_sums_as_zero_witness :
    (∀ s ∈ mkSeries [nullSample, ⟨⟨1, 1, "Jan"⟩, some 500⟩] 5 (78/100),
        s.ghi = none → s.production = none) ∧
    annual_yield (mkSeries [nullSample, ⟨⟨1, 1, "Jan"⟩, some 500⟩] 5 (78/100))
      = annual_yield (mkSeries
          ([nullSample, ⟨⟨1, 1, "Jan"⟩, some 500⟩].map fillGhiZero) 5 (78/100)) :=
  null_ghi_propagates_and_sums_as_zero _ 5 (78/100)

/-- C4: with monthly bill 0 (the bill input accepts 0; the rate slider
cannot reach 0), the bill-offset computation runs anyway and silently
produces the non-finite float marker, rather than reporting a
configuration error: the division by zero is not prevented. -/
theorem zero_bill_offset_is_silent_nonfinite :
    (financialSummary 17082 0 (17/2)).billOffsetPercent = none := by
  simp [financialSummary, fdiv]

/-- C5: the financial summary fields satisfy the spec formulas: monthly
generation is a twelfth of the annual total, savings scale by the
rate, the bill offset is (monthly / (bill / rate)) × 100, CO2 saved is
annual × 0.7 / 1000 tonnes, and the tree equivalent is the floor of
co2 × 45 (for the non-negative totals the pipeline produces, Python
int-truncation coincides with floor). -/
theorem financial_summary_formulas (annual bill rate : ℚ)
    (hT : 0 ≤ annual) (hb : 0 < bill) (hr : 0 < rate) :
    (financialSummary annual bill rate).monthlyGenerationKwh = annual / 12 ∧
    (financialSummary annual bill rate).annualSavings = annual * rate ∧
    (financialSummary annual bill rate).billOffsetPercent
      = some ((annual / 12) / (bill / rate) * 100) ∧
    (financialSummary annual bill rate).co2SavedTonnes = annual * (7/10) / 1000 ∧
    (financialSummary annual bill rate).treeEquivalent
      = ⌊(financialSummary annual bill rate).co2SavedTonnes * 45⌋ := by
  have hbr : bill / rate ≠ 0 := by positivity
  have hco2 : (0:ℚ) ≤ annual * (7/10) / 1000 * 45 := by positivity
  refine ⟨rfl, rfl, ?_, rfl, ?_⟩
  · simp [financialSummary, fdiv, hbr]
  · simp [financialSummary, pyInt, hco2]

/-- Witness for C5 at the spec example: annual total 17082, bill 3000,
rate 8.5. -/
theorem financial_summary_formulas_witness :
    (financialSummary 17082 3000 (17/2)).monthlyGenerationKwh = 17082 / 12 ∧
    (financialSummary 17082 3000 (17/2)).annualSavings = 17082 * (17/2) ∧
    (financialSummary 17082 3000 (17/2)).billOffsetPercent
      = some ((17082 / 12) / (3000 / (17/2)) * 100) ∧
    (financialSummary 17082 3000 (17/2)).co2SavedTonnes = 17082 * (7/10) / 1000 ∧
    (financialSummary 17082 3000 (17/2)).treeEquivalent
      = ⌊(financialSummary 17082 3000 (17/2)).co2SavedTonnes * 45⌋ :=
  financial_summary_formulas 17082 3000 (17/2) (by norm_num) (by norm_num)
    (by norm_num)

/-- C6: the reported area is the absolute value of the external
geodesic signed area, hence non-negative; given that the geodesic
signed area is odd under reversal of the vertex ring, the reported
area does not depend on winding order; and the implied capacity is one
tenth of the area. -/
theorem geodesic_area_abs_and_capacity (signedArea : Ring → ℚ) (g : Ring)
    (hodd : ∀ r : Ring, signedArea (List.reverse r) = -(signedArea r)) :
    0 ≤ (areaEstimateOf signedArea g).areaSquareMeters ∧
    (areaEstimateOf signedArea (List.reverse g)).areaSquareMeters
      = (areaEstimateOf signedArea g).areaSquareMeters ∧
    (areaEstimateOf signedArea g).impliedCapacityKw
      = (areaEstimateOf signedArea g).areaSquareMeters / 10 := by
  refine ⟨abs_nonneg _, ?_, rfl⟩
  simp only [areaEstimateOf, calculate_geodesic_area, hodd g, abs_neg]

/-- The demo oracle is odd under reversal. -/
theorem demoSignedArea_odd (r : Ring) :
    demoSignedArea (List.reverse r) = -(demoSignedArea r) := by
  simp only [demoSignedArea, List.reverse_reverse]
  ring

/-- Witness for C6 with the demo oracle on a concrete ring. -/
theorem geodesic_area_abs_and_capacity_witness :
    0 ≤ (areaEstimateOf demoSignedArea [(0, 0), (1, 0), (1, 1)]).areaSquareMeters ∧
    (areaEstimateOf demoSignedArea
        (List.reverse [(0, 0), (1, 0), (1, 1)])).areaSquareMeters
      = (areaEstimateOf demoSignedArea [(0, 0), (1, 0), (1, 1)]).areaSquareMeters ∧
    (areaEstimateOf demoSignedArea [(0, 0), (1, 0), (1, 1)]).impliedCapacityKw
      = (areaEstimateOf demoSignedArea [(0, 0), (1, 0), (1, 1)]).areaSquareMeters
          / 10 :=
  geodesic_area_abs_and_capacity demoSignedArea [(0, 0), (1, 0), (1, 1)]
    demoSignedArea_odd

/-- C7: a drawn shape whose geometry type is not Polygon is rejected
with the warning message; no area estimate is produced and the area
oracle is never consulted (the result is the same for every oracle). -/
theorem non_polygon_drawing_rejected (signedArea : Ring → ℚ) (d : Drawing)
    (h : d.geomType ≠ "Polygon") :
    processDrawing signedArea d = .warn "Please draw a polygon or rectangle." ∧
    ∀ est, processDrawing signedArea d ≠ .ok est := by
  constructor
  · simp [processDrawing, h]
  · intro est hok
    rw [processDrawing, if_neg h] at hok
    exact AreaOutcome.noConfusion hok

/-- Witness for C7 on a drawn line. -/
theorem non_polygon_drawing_rejected_witness :
    processDrawing demoSignedArea ⟨"LineString", [(0, 0), (1, 1)]⟩
        = .warn "Please draw a polygon or rectangle." ∧
    ∀ est, processDrawing demoSignedArea ⟨"LineString", [(0, 0), (1, 1)]⟩
        ≠ .ok est :=
  non_polygon_drawing_rejected demoSignedArea ⟨"LineString", [(0, 0), (1, 1)]⟩
    (by decide)

/-- C8: a geocoding miss reports exactly the address-not-found message
and attempts no fetch, and its message trace differs from the trace of
every geocoder exception (which additionally shows the Geocoding error
message), so the two outcomes are distinguishable. -/
theorem address_not_found_distinct_no_fetch :
    runGeocodePipeline .notFound = (false, [addressNotFoundMsg]) ∧
    ∀ e : String,
      (runGeocodePipeline (.geoError e)).1 = false ∧
      (runGeocodePipeline (.geoError e)).2 ≠ (runGeocodePipeline .notFound).2 := by
  constructor
  · rfl
  · intro e
    constructor
    · rfl
    · intro h
      have hlen : (2 : Nat) = 1 := congrArg List.length h
      exact absurd hlen (by norm_num)

/-- C10: a genuinely successful geocoding whose latitude is exactly 0
(a point on the equator), or manual coordinates with latitude 0, is
routed to the address-not-found branch with no fetch, because line 119
tests the truthiness of the latitude float rather than whether
geocoding succeeded. -/
theorem equator_latitude_treated_as_not_found :
    runGeocodePipeline (.found 0 (738567/10000) "Equator Town")
      = (false, [addressNotFoundMsg]) ∧
    analyzeGate (some 0) [] = (false, [addressNotFoundMsg]) := by
  constructor <;> rfl

end SolarApp
